import Mathlib

/-!
Verification development for the pygeos geometry core of this repository
(src/pygeos/geom.py and src/pygeos/prepared.py).

The data model and the operations are shallowly embedded from the Python
source.  Coordinates are modelled with integer ordinates (every input
exercised here is integral; the source performs no arithmetic on them other
than comparisons, min/max and the sign computations modelled below, all of
which are exact over the integers).

Modules of the repository that geom.py / prepared.py import but that are not
present under src/ (constants.py with Envelope / Coordinate /
CoordinateSequence / ComponentCoordinateExtracter, algorithms.py with the
point locators, noding.py with the segment-intersection machinery,
op_relate.py with the DE-9IM relate engine) are modelled from the spec; each
such definition carries a doc comment starting with "Modelled from the
spec:".  Python exceptions are modelled with an explicit error type: a
function that can raise returns an `Except PyErr` value.
-/

namespace PyGeos

/-- A 2D coordinate (constants.py `Coordinate`, consumed as a value type with
exact equality; the z ordinate plays no role in any code modelled here). -/
structure Coord where
  x : Int
  y : Int
deriving DecidableEq, Repr

/-- A non-null axis-aligned bounding box.  The source's `Envelope` may also be
"null"; a possibly-null envelope is modelled as `Option Box` (`none` = null). -/
structure Box where
  minx : Int
  miny : Int
  maxx : Int
  maxy : Int
deriving DecidableEq, Repr

/-- Python exceptions raised by the modelled code paths. -/
inductive PyErr where
  /-- `TypeError`: a method called without one of its required positional
  arguments. -/
  | typeErrorMissingArg
  /-- `ValueError`. -/
  | valueError
  /-- `IndexError`: sequence index out of range. -/
  | indexError
  /-- `AttributeError`: attribute or method absent from the receiver. -/
  | attributeError
deriving DecidableEq, Repr

/-- Modelled from the spec: the point-in-area locator's classification
(`Location` in the absent constants.py): "a point-in-area locator (point ->
{interior, boundary, exterior} classification against a polygonal
geometry)". -/
inductive Location where
  | interior
  | boundary
  | exterior
deriving DecidableEq, Repr

/-- Modelled from the spec: `Envelope.intersects` (constants.py is absent from
src/).  "Envelope: axis-aligned bounding box (minx, miny, maxx, maxy) ...
Supports intersects, contains, covers against another envelope" with the
standard AABB overlap semantics. -/
def boxIntersects (a b : Box) : Bool :=
  decide (b.minx ≤ a.maxx ∧ a.minx ≤ b.maxx ∧ b.miny ≤ a.maxy ∧ a.miny ≤ b.maxy)

/-- Modelled from the spec: `Envelope.covers` (constants.py is absent from
src/): the second box lies entirely inside the first. -/
def boxCovers (a b : Box) : Bool :=
  decide (a.minx ≤ b.minx ∧ b.maxx ≤ a.maxx ∧ a.miny ≤ b.miny ∧ b.maxy ≤ a.maxy)

/-- Modelled from the spec: `Envelope.contains` (constants.py is absent from
src/); per the spec's envelope contract it is the same containment relation as
`covers`. -/
def boxContainsEnv : Box → Box → Bool := boxCovers

/-- The geometry variants of geom.py: Point, LineString, LinearRing, Polygon,
their homogeneous collections and the heterogeneous GeometryCollection.
A ring is carried as its coordinate list; a polygon carries the coordinates of
its exterior LinearRing and of each interior LinearRing (hole). -/
inductive Geom where
  | point (c : Coord)
  | lineString (cs : List Coord)
  | linearRing (cs : List Coord)
  | polygon (exterior : List Coord) (interiors : List (List Coord))
  | multiPoint (geoms : List Geom)
  | multiLineString (geoms : List Geom)
  | multiPolygon (geoms : List Geom)
  | collection (geoms : List Geom)

/-- The `GeometryTypeId` discriminant (the numeric constants live in the absent
constants.py; only equality comparisons against them occur, so the discriminant
is modelled as an enumeration). -/
inductive GeomTypeId where
  | point
  | lineString
  | linearRing
  | polygon
  | multiPoint
  | multiLineString
  | multiPolygon
  | geometryCollection
deriving DecidableEq, Repr

/-- `geometryTypeId`: each concrete class returns its own constant. -/
def Geom.typeId : Geom → GeomTypeId
  | .point _ => .point
  | .lineString _ => .lineString
  | .linearRing _ => .linearRing
  | .polygon _ _ => .polygon
  | .multiPoint _ => .multiPoint
  | .multiLineString _ => .multiLineString
  | .multiPolygon _ => .multiPolygon
  | .collection _ => .geometryCollection

/-- `is_empty`, exactly as the class hierarchy resolves it: `LineString` (and
`LinearRing`) report `numpoints < 1`; `Polygon` reports `exterior.is_empty`;
`Point`, `GeometryCollection` and the `Multi*` classes do NOT override the base
`Geometry.is_empty`, which returns `False` unconditionally. -/
def Geom.is_empty : Geom → Bool
  | .point _ => false
  | .lineString cs => decide (cs.length < 1)
  | .linearRing cs => decide (cs.length < 1)
  | .polygon exterior _ => decide (exterior.length < 1)
  | .multiPoint _ => false
  | .multiLineString _ => false
  | .multiPolygon _ => false
  | .collection _ => false

/-- `is_rectangle`: the base `Geometry.is_rectangle` returns `False` and no
class in geom.py overrides it (in particular `Polygon` does not), so every
geometry reports `False`. -/
def Geom.is_rectangle (_ : Geom) : Bool := false

/-- `numgeoms`: collections return the child count, every other class returns
the base default 1. -/
def Geom.numgeoms : Geom → Nat
  | .multiPoint gs => gs.length
  | .multiLineString gs => gs.length
  | .multiPolygon gs => gs.length
  | .collection gs => gs.length
  | _ => 1

/-- `getGeometryN`: collections index into their children (out-of-range access
never occurs on the modelled paths, which guard with `numgeoms`; it defaults to
the receiver), other classes return the receiver itself. -/
def Geom.getGeometryN (g : Geom) (i : Nat) : Geom :=
  match g with
  | .multiPoint gs => gs.getD i g
  | .multiLineString gs => gs.getD i g
  | .multiPolygon gs => gs.getD i g
  | .collection gs => gs.getD i g
  | _ => g

mutual

/-- `dimension`: Point/MultiPoint 0, LineString/LinearRing/MultiLineString 1,
Polygon/MultiPolygon 2; GeometryCollection takes the maximum over its children
starting from 0. -/
def Geom.dimension : Geom → Nat
  | .point _ => 0
  | .lineString _ => 1
  | .linearRing _ => 1
  | .polygon _ _ => 2
  | .multiPoint _ => 0
  | .multiLineString _ => 1
  | .multiPolygon _ => 2
  | .collection gs => dimensionList gs

def dimensionList : List Geom → Nat
  | [] => 0
  | g :: gs => max (Geom.dimension g) (dimensionList gs)

end

/-- The coordinate bounds of a list, as `LineString.computeEnvelope` computes
them (`min`/`max` over the x and y ordinate lists); `none` when the list is
empty (where Python's `min([])` raises `ValueError`). -/
def coordsBox : List Coord → Option Box
  | [] => none
  | c :: rest =>
      some (rest.foldl
        (fun (b : Box) (p : Coord) =>
          ⟨min b.minx p.x, min b.miny p.y, max b.maxx p.x, max b.maxy p.y⟩)
        ⟨c.x, c.y, c.x, c.y⟩)

/-- `Geometry.envelope` / `computeEnvelope` resolved per class, as a pure
computation of the cached value: `Point` builds a degenerate box from its
coordinate; `LineString`/`LinearRing` take min/max over their coordinates
(raising `ValueError` on an empty sequence, since `min([])` raises);
`Polygon` returns its exterior ring's envelope; `GeometryCollection` and the
`Multi*` classes define no `computeEnvelope`, so the base `Geometry.envelope`
property raises `AttributeError` on them. -/
def computeEnvelope : Geom → Except PyErr Box
  | .point c => .ok ⟨c.x, c.y, c.x, c.y⟩
  | .lineString cs =>
      match coordsBox cs with
      | some b => .ok b
      | none => .error .valueError
  | .linearRing cs =>
      match coordsBox cs with
      | some b => .ok b
      | none => .error .valueError
  | .polygon exterior _ =>
      match coordsBox exterior with
      | some b => .ok b
      | none => .error .valueError
  | .multiPoint _ => .error .attributeError
  | .multiLineString _ => .error .attributeError
  | .multiPolygon _ => .error .attributeError
  | .collection _ => .error .attributeError

/-- Twice the signed area of the triangle `a b p`; its sign gives the side of
the directed line `a -> b` on which `p` lies (exact over the integers). -/
def orient2 (a b p : Coord) : Int :=
  (b.x - a.x) * (p.y - a.y) - (b.y - a.y) * (p.x - a.x)

/-- Whether `p` lies on the closed segment `a b`. -/
def onSegment (p a b : Coord) : Bool :=
  decide (orient2 a b p = 0 ∧ min a.x b.x ≤ p.x ∧ p.x ≤ max a.x b.x ∧
    min a.y b.y ≤ p.y ∧ p.y ≤ max a.y b.y)

/-- The consecutive coordinate pairs of a coordinate sequence (the line
segments of a LineString or ring). -/
def edgesOf (cs : List Coord) : List (Coord × Coord) :=
  cs.zip cs.tail

/-- Whether the edge `a -> b` crosses the horizontal ray from `p` towards
`+x` (standard exact parity-test edge rule: the edge spans `p.y` half-open
upward, and `p` lies strictly on the corresponding side of the edge line). -/
def edgeCrossesRay (p a b : Coord) : Bool :=
  if a.y ≤ p.y ∧ p.y < b.y then decide (orient2 a b p > 0)
  else if b.y ≤ p.y ∧ p.y < a.y then decide (orient2 a b p < 0)
  else false

/-- Modelled from the spec: exact classification of a point against a single
closed ring (part of the point-in-area locators of the absent algorithms.py):
on an edge gives `boundary`, otherwise the ray-crossing parity decides
`interior` versus `exterior`. -/
def pointInRing (p : Coord) (ring : List Coord) : Location :=
  if (edgesOf ring).any (fun e => onSegment p e.1 e.2) then .boundary
  else if (edgesOf ring).countP (fun e => edgeCrossesRay p e.1 e.2) % 2 = 1 then .interior
  else .exterior

/-- Classification of a point against the holes of a polygon whose shell
already contains the point: inside some hole is `exterior`, on some hole
boundary is `boundary`, otherwise `interior`. -/
def locateInHoles (p : Coord) : List (List Coord) → Location
  | [] => .interior
  | h :: hs =>
      match pointInRing p h with
      | .interior => .exterior
      | .boundary => .boundary
      | .exterior => locateInHoles p hs

/-- Classification of a point against one polygon (shell plus holes). -/
def locateInPolygonRings (p : Coord) (exterior : List Coord)
    (interiors : List (List Coord)) : Location :=
  match pointInRing p exterior with
  | .interior => locateInHoles p interiors
  | .boundary => .boundary
  | .exterior => .exterior

mutual

/-- Modelled from the spec: the point-in-area locator (algorithms.py's
`SimplePointInAreaLocator` / `IndexedPointInAreaLocator` are absent from
src/): "a point-in-area locator (point -> {interior, boundary, exterior}
classification against a polygonal geometry)".  Polygons are classified
against shell and holes; a MultiPolygon returns the first non-exterior child
classification; non-polygonal geometries have no area, so every point is
exterior to them. -/
def locatePointInArea (p : Coord) : Geom → Location
  | .polygon exterior interiors => locateInPolygonRings p exterior interiors
  | .multiPolygon gs => locateInAreaList p gs
  | _ => .exterior

def locateInAreaList (p : Coord) : List Geom → Location
  | [] => .exterior
  | g :: gs =>
      match locatePointInArea p g with
      | .exterior => locateInAreaList p gs
      | loc => loc

end

mutual

/-- Modelled from the spec: `ComponentCoordinateExtracter.getCoordinates`
(constants.py is absent from src/); per the source's own documentation of the
extracted list: "One vertex is included for every component of the geometry
(i.e. including one for every ring of polygonal geometries)". -/
def representativeCoords : Geom → List Coord
  | .point c => [c]
  | .lineString cs => cs.take 1
  | .linearRing cs => cs.take 1
  | .polygon exterior interiors =>
      exterior.take 1 ++ interiors.foldr (fun h acc => h.take 1 ++ acc) []
  | .multiPoint gs => representativeCoordsList gs
  | .multiLineString gs => representativeCoordsList gs
  | .multiPolygon gs => representativeCoordsList gs
  | .collection gs => representativeCoordsList gs

def representativeCoordsList : List Geom → List Coord
  | [] => []
  | g :: gs => representativeCoords g ++ representativeCoordsList gs

end

mutual

/-- Modelled from the spec: `SegmentStringUtil.extractSegmentStrings`
(noding.py is absent from src/): the segments of all linear components of a
geometry (LineStrings, rings of polygons); point-like components contribute
no segments. -/
def segStringsOf : Geom → List (Coord × Coord)
  | .point _ => []
  | .lineString cs => edgesOf cs
  | .linearRing cs => edgesOf cs
  | .polygon exterior interiors =>
      edgesOf exterior ++ interiors.foldr (fun h acc => edgesOf h ++ acc) []
  | .multiPoint _ => []
  | .multiLineString gs => segStringsOfList gs
  | .multiPolygon gs => segStringsOfList gs
  | .collection gs => segStringsOfList gs

def segStringsOfList : List Geom → List (Coord × Coord)
  | [] => []
  | g :: gs => segStringsOf g ++ segStringsOfList gs

end

/-- Modelled from the spec: a proper segment intersection (glossary: "a
segment intersection that is not merely at a shared endpoint/vertex"; the
intersection point lies strictly inside both segments, i.e. the segments
cross strictly). -/
def segProper (s1 s2 : Coord × Coord) : Bool :=
  decide (orient2 s1.1 s1.2 s2.1 * orient2 s1.1 s1.2 s2.2 < 0 ∧
    orient2 s2.1 s2.2 s1.1 * orient2 s2.1 s2.2 s1.2 < 0)

/-- Modelled from the spec: whether two closed segments intersect at all
(a segment-set intersection finder is a consumed collaborator): either they
cross properly, or an endpoint of one lies on the other. -/
def segIntersectsSeg (s1 s2 : Coord × Coord) : Bool :=
  segProper s1 s2 ||
  onSegment s2.1 s1.1 s1.2 || onSegment s2.2 s1.1 s1.2 ||
  onSegment s1.1 s2.1 s2.2 || onSegment s1.2 s2.1 s2.2

/-- Modelled from the spec: `FastSegmentSetIntersectionFinder.intersects`
(noding.py is absent from src/) — whether any target segment intersects any
test segment. -/
def anySegsIntersect (target test : List (Coord × Coord)) : Bool :=
  target.any (fun a => test.any (fun b => segIntersectsSeg a b))

/-- Modelled from the spec: the `SegmentIntersectionDetector` outcome
(noding.py is absent from src/) driven by
`AbstractPreparedPolygonContains.findAndClassifyIntersections`:
`(hasIntersection, hasProperIntersection, hasNonProperIntersection)` over all
target/test segment pairs. -/
def classifySegIntersections (target test : List (Coord × Coord)) :
    Bool × Bool × Bool :=
  (anySegsIntersect target test,
   target.any (fun a => test.any (fun b => segProper a b)),
   target.any (fun a => test.any (fun b => segIntersectsSeg a b && !segProper a b)))

/-- `Geometry.envelope.intersects(other.envelope)`: the envelope pre-filter of
the relate-based predicates (either envelope computation may raise). -/
def envelopesIntersectG (a b : Geom) : Except PyErr Bool :=
  match computeEnvelope a with
  | .error e => .error e
  | .ok ea =>
      match computeEnvelope b with
      | .error e => .error e
      | .ok eb => .ok (boxIntersects ea eb)

/-- `BasicPreparedGeometry.envelopeCovers`:
`self.geom.envelope.covers(geom.envelope)`. -/
def envelopeCoversG (a b : Geom) : Except PyErr Bool :=
  match computeEnvelope a with
  | .error e => .error e
  | .ok ea =>
      match computeEnvelope b with
      | .error e => .error e
      | .ok eb => .ok (boxCovers ea eb)

/-- `Geometry.contains`: envelope pre-filter, then `relate(other).isContains`.
The DE-9IM relate engine lives in op_relate.py, which is absent from src/, so
its `isContains` classification is passed in as the `relateIsContains`
oracle. -/
def geomContains (relateIsContains : Geom → Geom → Bool) (a b : Geom) :
    Except PyErr Bool :=
  match envelopesIntersectG a b with
  | .error e => .error e
  | .ok r => if !r then .ok false else .ok (relateIsContains a b)

/-- `Geometry.within`: the source is literally `return other.contains(self)`. -/
def geomWithin (relateIsContains : Geom → Geom → Bool) (a b : Geom) :
    Except PyErr Bool :=
  geomContains relateIsContains b a

/-- Modelled from the spec: the `isContains` DE-9IM classification of the
absent relate engine (op_relate.py), instantiated only for the cases the
theorems below evaluate, namely a polygonal target against a point test:
"points on the boundary never count toward contains for polygonal targets",
so contains holds exactly when the point lies in the target's interior.
Every other pairing is unreachable in the concrete evaluations and reports
false. -/
def specRelateContains (a b : Geom) : Bool :=
  match b with
  | .point c =>
      match a with
      | .polygon _ _ => locatePointInArea c a = .interior
      | .multiPolygon _ => locatePointInArea c a = .interior
      | _ => false
  | _ => false

/-- `GeometryFactory.createGeometryCollection(newGeoms)`: `newGeoms` is a
required positional argument (the definition has no default), a fact the
empty-operand short-circuits of `intersection`/`difference` violate at their
call sites. -/
def createGeometryCollection (newGeoms : List Geom) : Geom :=
  .collection newGeoms

/-- The outcome of a boolean set operation that was not short-circuited:
delegation to the external overlay collaborator
(`BinaryOp(self, other, overlayOp(...))`). -/
inductive BinResult where
  | delegatedToOverlay
deriving DecidableEq, Repr

/-- `Geometry.intersection`: when either operand `is_empty` the source runs
`return self._factory.createGeometryCollection()` — calling
`createGeometryCollection` without its required `newGeoms` argument, which
raises `TypeError`; otherwise it delegates to the external overlay
operation. -/
def geomIntersection (a b : Geom) : Except PyErr BinResult :=
  if a.is_empty || b.is_empty then .error .typeErrorMissingArg
  else .ok .delegatedToOverlay

/-- `GeometryFactory.createLineString`: constructs the LineString first —
whose `validateConstruction` raises `ValueError` on exactly 1 point — then
returns it when it has more than 1 point and `None` otherwise. -/
def createLineString (cs : List Coord) : Except PyErr (Option Geom) :=
  if cs.length = 1 then .error .valueError
  else if cs.length > 1 then .ok (some (.lineString cs))
  else .ok none

/-- Modelled from the spec: `CoordinateSequence.removeRepeatedPoints`
(constants.py is absent from src/): "repeated consecutive points are removed
at construction". -/
def removeRepeatedPoints : List Coord → List Coord
  | [] => []
  | [c] => [c]
  | a :: b :: rest =>
      if a = b then removeRepeatedPoints (b :: rest)
      else a :: removeRepeatedPoints (b :: rest)

/-- `LinearRing` construction (`LinearRing.__init__` plus its
`validateConstruction`), returning the stored coordinate sequence: repeated
consecutive points are removed first; then `0 < numpoints < 4` raises
`ValueError`; otherwise the closure check `self._coords[0] !=
self._coords[-1]` runs unconditionally — on a 0-point sequence the `[0]`
access raises `IndexError` (sequence indexing modelled with standard
semantics, constants.py being absent) — and an unclosed sequence raises
`ValueError`. -/
def createLinearRingCoords (cs : List Coord) : Except PyErr (List Coord) :=
  let ds := removeRepeatedPoints cs
  if 0 < ds.length ∧ ds.length < 4 then .error .valueError
  else
    match ds with
    | [] => .error .indexError
    | c :: rest =>
        if c = rest.getLastD c then .ok (c :: rest) else .error .valueError

/-- `GeometryFactory.toGeometry(envelope)`: a null envelope runs
`return self.createPoint()` — calling `createPoint` without its required
`coord` argument, which raises `TypeError`; a zero-width zero-height envelope
becomes a single point; otherwise the closed 5-point rectangle ring
(min/min, max/min, max/max, min/max, min/min) is built into a LinearRing and
wrapped in a Polygon with no holes. -/
def toGeometry (envelope : Option Box) : Except PyErr Geom :=
  match envelope with
  | none => .error .typeErrorMissingArg
  | some e =>
      if e.maxx - e.minx = 0 ∧ e.maxy - e.miny = 0 then
        .ok (.point ⟨e.minx, e.miny⟩)
      else
        match createLinearRingCoords
            [⟨e.minx, e.miny⟩, ⟨e.maxx, e.miny⟩, ⟨e.maxx, e.maxy⟩,
             ⟨e.minx, e.maxy⟩, ⟨e.minx, e.miny⟩] with
        | .error err => .error err
        | .ok ring => .ok (.polygon ring [])

/-- The mutable per-instance state of a `LineString`: its coordinate storage,
the `_envelope` cache cell, and the `_env` attribute that only
`geometryChangedAction` ever writes (it does not exist as a cache; it is
modelled so that the action's actual assignment target is explicit). -/
structure LineStringObj where
  _coords : List Coord
  _envelope : Option Box := none
  _env : Option Box := none
deriving DecidableEq, Repr

/-- `LineString.computeEnvelope` as state transformer: return the cached
`_envelope` when present, otherwise compute min/max over the coordinates
(raising `ValueError` when empty) and store it in the cache. -/
def lsComputeEnvelope (s : LineStringObj) :
    Except PyErr (LineStringObj × Box) :=
  match s._envelope with
  | some e => .ok (s, e)
  | none =>
      match coordsBox s._coords with
      | some bx => .ok ({ s with _envelope := some bx }, bx)
      | none => .error .valueError

/-- `Geometry.geometryChangedAction`, reached from `geometryChanged` through
`apply_rw(GeometryChangedFilter)` (for a LineString the filter is not a
CoordinateFilter, so `apply_rw` calls `filter.filter_rw(self)`, which calls
this action): the source runs `self._env = None`, writing the attribute
`_env` — not the `_envelope` cache cell. -/
def lsGeometryChangedAction (s : LineStringObj) : LineStringObj :=
  { s with _env := none }

/-- `RectangleContains.isCoordContainedInBoundary`: the coordinate lies on one
of the four bounding lines of the rectangle's envelope. -/
def isCoordContainedInBoundary (env : Box) (c : Coord) : Bool :=
  decide (c.x = env.minx ∨ c.x = env.maxx ∨ c.y = env.miny ∨ c.y = env.maxy)

/-- `RectangleContains.isLineSegmentContainedInBoundary`. -/
def isLineSegmentContainedInBoundary (env : Box) (p0 p1 : Coord) : Bool :=
  if p0 = p1 then isCoordContainedInBoundary env p0
  else if p0.x = p1.x then decide (p0.x = env.minx ∨ p0.x = env.maxx)
  else if p0.y = p1.y then decide (p0.y = env.miny ∨ p0.y = env.maxy)
  else false

/-- `RectangleContains.isLineStringContainedInBoundary`: every segment of the
linestring is contained in the boundary. -/
def isLineStringContainedInBoundary (env : Box) (cs : List Coord) : Bool :=
  (edgesOf cs).all (fun e => isLineSegmentContainedInBoundary env e.1 e.2)

mutual

/-- `RectangleContains.isContainedInBoundary`: polygons are never wholly
contained in the boundary; points and linestrings use the dedicated tests.
The dispatch compares `geometryTypeId` against `GEOS_POLYGON`, `GEOS_POINT`
and `GEOS_LINESTRING` only, so a `LinearRing` (type id `GEOS_LINEARRING`)
falls through to the `for g in geom.geoms` loop and raises `AttributeError`
(LineString-derived classes have no `geoms` attribute); collections recurse
over their children and are boundary-contained when all children are. -/
def isContainedInBoundary (env : Box) : Geom → Except PyErr Bool
  | .polygon _ _ => .ok false
  | .point c => .ok (isCoordContainedInBoundary env c)
  | .lineString cs => .ok (isLineStringContainedInBoundary env cs)
  | .linearRing _ => .error .attributeError
  | .multiPoint gs => isContainedInBoundaryList env gs
  | .multiLineString gs => isContainedInBoundaryList env gs
  | .multiPolygon gs => isContainedInBoundaryList env gs
  | .collection gs => isContainedInBoundaryList env gs

def isContainedInBoundaryList (env : Box) : List Geom → Except PyErr Bool
  | [] => .ok true
  | g :: gs =>
      match isContainedInBoundary env g with
      | .error e => .error e
      | .ok b => if !b then .ok false else isContainedInBoundaryList env gs

end

/-- `RectangleContains.contains(rect, geom)` / `_contains`: the rectangle's
envelope must contain the test envelope and the test geometry must not be
entirely confined to the rectangle's boundary. -/
def rectangleContains (rect g : Geom) : Except PyErr Bool :=
  match computeEnvelope rect with
  | .error e => .error e
  | .ok rectEnv =>
      match computeEnvelope g with
      | .error e => .error e
      | .ok genv =>
          if !(boxContainsEnv rectEnv genv) then .ok false
          else
            match isContainedInBoundary rectEnv g with
            | .error e => .error e
            | .ok b => if b then .ok false else .ok true

/-- `PreparedPolygon`: wraps the polygonal geometry; its representative points
and its `is_rectangle` flag (`geom.is_rectangle`, which is always false in
this port) are derived from the wrapped geometry, and the indexes are pure
derived data here. -/
structure PreparedPolygon where
  geom : Geom

/-- `BasicPreparedGeometry.representativePts` of the wrapped geometry. -/
def PreparedPolygon.representativePts (p : PreparedPolygon) : List Coord :=
  representativeCoords p.geom

/-- `PreparedPolygonPredicate.isAllTestComponentsInTarget`: no representative
point of the test geometry locates in the target's exterior. -/
def isAllTestComponentsInTarget (prep : PreparedPolygon) (g : Geom) : Bool :=
  (representativeCoords g).all (fun pt => locatePointInArea pt prep.geom ≠ .exterior)

/-- `PreparedPolygonPredicate.isAllTestComponentsInTargetInterior`. -/
def isAllTestComponentsInTargetInterior (prep : PreparedPolygon) (g : Geom) : Bool :=
  (representativeCoords g).all (fun pt => locatePointInArea pt prep.geom = .interior)

/-- `PreparedPolygonPredicate.isAnyTestComponentInTarget`. -/
def isAnyTestComponentInTarget (prep : PreparedPolygon) (g : Geom) : Bool :=
  (representativeCoords g).any (fun pt => locatePointInArea pt prep.geom ≠ .exterior)

/-- `PreparedPolygonPredicate.isAnyTestComponentInTargetInterior`. -/
def isAnyTestComponentInTargetInterior (prep : PreparedPolygon) (g : Geom) : Bool :=
  (representativeCoords g).any (fun pt => locatePointInArea pt prep.geom = .interior)

/-- `PreparedPolygonPredicate.isAnyTargetComponentInAreaTest(geom, targetPts)`
exactly as the source computes it: it ignores its `targetPts` parameter,
extracts the representative coordinates of `geom` — the TEST geometry — and
locates each of them against `geom` itself with `SimplePointInAreaLocator`. -/
def isAnyTargetComponentInAreaTest (g : Geom) : Bool :=
  (representativeCoords g).any (fun pt => locatePointInArea pt g ≠ .exterior)

/-- `AbstractPreparedPolygonContains.isSingleShell`: exactly one component and
that component has no interior rings (the `len(poly.interiors)` access assumes
the component is a Polygon, which holds for every prepared polygonal
geometry). -/
def isSingleShell (g : Geom) : Bool :=
  if g.numgeoms ≠ 1 then false
  else
    match g.getGeometryN 0 with
    | .polygon _ interiors => interiors.isEmpty
    | _ => false

/-- `AbstractPreparedPolygonContains.isProperIntersectionImpliesNotContainedSituation`:
true when the test geometry is polygonal, or when the target is a single
polygon shell with no holes. -/
def isProperIntersectionImpliesNotContainedSituation
    (prep : PreparedPolygon) (g : Geom) : Bool :=
  if g.typeId = .multiPolygon ∨ g.typeId = .polygon then true
  else isSingleShell prep.geom

/-- `AbstractPreparedPolygonContains.eval` with the
`requireSomePointInInterior` flag and the predicate-specific
`fullTopologicalPredicate` passed explicitly: point-in-target pre-tests, the
point-like interior test under the flag, the proper/non-proper segment
intersection short-circuits, fallback to the full topological predicate, and
the target-ring-inside-test check for polygonal tests. -/
def abstractContainsEval (requireSomePointInInterior : Bool)
    (fullTopologicalPred : Geom → Except PyErr Bool)
    (prep : PreparedPolygon) (g : Geom) : Except PyErr Bool :=
  if !(isAllTestComponentsInTarget prep g) then .ok false
  else if requireSomePointInInterior && Geom.dimension g = 0 then
    .ok (isAnyTestComponentInTargetInterior prep g)
  else
    let properImpliesNotContained :=
      isProperIntersectionImpliesNotContainedSituation prep g
    let cls := classifySegIntersections (segStringsOf prep.geom) (segStringsOf g)
    if properImpliesNotContained && cls.2.1 then .ok false
    else if cls.1 && !cls.2.2 then .ok false
    else if cls.1 then fullTopologicalPred g
    else if (g.typeId = .multiPolygon ∨ g.typeId = .polygon) &&
        isAnyTargetComponentInAreaTest g then .ok false
    else .ok true

/-- `PreparedPolygon.contains`: envelope-covers pre-filter; the
`is_rectangle` fast path (dead in this port, `is_rectangle` being always
false); otherwise `PreparedPolygonContains.contains`, whose `__init__` calls
`AbstractPreparedPolygonContains.__init__(self, prep)` WITHOUT the
`requireSomePointInInterior` argument, leaving the flag at its default
`False`; its `fullTopologicalPredicate` is `self.prepPoly.geom.contains`. -/
def preparedPolygonContains (relateIsContains : Geom → Geom → Bool)
    (prep : PreparedPolygon) (g : Geom) : Except PyErr Bool :=
  match envelopeCoversG prep.geom g with
  | .error e => .error e
  | .ok c =>
      if !c then .ok false
      else if prep.geom.is_rectangle then rectangleContains prep.geom g
      else
        abstractContainsEval false
          (fun t => geomContains relateIsContains prep.geom t) prep g

/-- `PreparedPolygon.covers`: envelope-covers pre-filter, then
`PreparedPolygonCovers.covers` runs `eval`.  `PreparedPolygonCovers.__init__`
calls `PreparedPolygonPredicate.__init__` (not
`AbstractPreparedPolygonContains.__init__`), so none of the eval attributes —
in particular `requireSomePointInInterior` — is ever initialized; `eval`
reaches the attribute read `self.requireSomePointInInterior` right after its
first check and raises `AttributeError` there. -/
def preparedPolygonCovers (prep : PreparedPolygon) (g : Geom) :
    Except PyErr Bool :=
  match envelopeCoversG prep.geom g with
  | .error e => .error e
  | .ok c =>
      if !c then .ok false
      else if !(isAllTestComponentsInTarget prep g) then .ok false
      else .error .attributeError

/-- `PreparedPolygon.containsProperly`: envelope-covers pre-filter, then
`PreparedPolygonContainsProperly._containsProperly`: all test components
strictly interior, no segment intersection, and for polygonal tests the
(source-faithful) `isAnyTargetComponentInAreaTest` check. -/
def preparedPolygonContainsProperly (prep : PreparedPolygon) (g : Geom) :
    Except PyErr Bool :=
  match envelopeCoversG prep.geom g with
  | .error e => .error e
  | .ok c =>
      if !c then .ok false
      else if !(isAllTestComponentsInTargetInterior prep g) then .ok false
      else if anySegsIntersect (segStringsOf prep.geom) (segStringsOf g) then
        .ok false
      else if (g.typeId = .multiPolygon ∨ g.typeId = .polygon) &&
          isAnyTargetComponentInAreaTest g then .ok false
      else .ok true

/-- `PreparedPolygonIntersects._intersects`: any test representative in the
target area; else points never intersect further; else any segment/segment
intersection; else for areal tests the (source-faithful)
`isAnyTargetComponentInAreaTest` check. -/
def preparedPolygonIntersectsRun (prep : PreparedPolygon) (g : Geom) : Bool :=
  if isAnyTestComponentInTarget prep g then true
  else if g.typeId = .point then false
  else if anySegsIntersect (segStringsOf prep.geom) (segStringsOf g) then true
  else if Geom.dimension g = 2 then isAnyTargetComponentInAreaTest g
  else false

/-- `PreparedPolygon.intersects`: envelope-covers pre-filter; when
`is_rectangle` the source calls `RectangleContains.intersects(self.geom,
geom)`, a method that does not exist on `RectangleContains` (only `contains`
does), raising `AttributeError`; otherwise
`PreparedPolygonIntersects.intersects`. -/
def preparedPolygonIntersects (prep : PreparedPolygon) (g : Geom) :
    Except PyErr Bool :=
  match envelopeCoversG prep.geom g with
  | .error e => .error e
  | .ok c =>
      if !c then .ok false
      else if prep.geom.is_rectangle then .error .attributeError
      else .ok (preparedPolygonIntersectsRun prep g)

/-! Concrete fixtures used by the theorems below. -/

/-- A non-rectangular triangle target: shell (0,0), (10,0), (0,10), closed. -/
def triGeom : Geom := .polygon [⟨0, 0⟩, ⟨10, 0⟩, ⟨0, 10⟩, ⟨0, 0⟩] []

/-- The axis-aligned square [0,0]-[10,10] of the spec's rectangle test. -/
def sq10Geom : Geom :=
  .polygon [⟨0, 0⟩, ⟨10, 0⟩, ⟨10, 10⟩, ⟨0, 10⟩, ⟨0, 0⟩] []

/-- An axis-aligned square [0,0]-[4,4]. -/
def sq4Geom : Geom := .polygon [⟨0, 0⟩, ⟨4, 0⟩, ⟨4, 4⟩, ⟨0, 4⟩, ⟨0, 0⟩] []

/-- C1: the claimed prepared/unprepared equivalence `prepare(A).P(B) ==
A.P(B)` fails on the code.  For the triangle target A and the boundary point
B = (5,0): the prepared contains returns true — `PreparedPolygonContains`
leaves `requireSomePointInInterior` at its default `False`, so the
point-like boundary test that should reject B is skipped — while the direct
`Geometry.contains` (DE-9IM: a boundary point is not contained by a
polygonal target) returns false. -/
theorem c1_prepared_contains_disagrees_with_direct_contains :
    preparedPolygonContains specRelateContains ⟨triGeom⟩ (.point ⟨5, 0⟩) =
      .ok true ∧
    geomContains specRelateContains triGeom (.point ⟨5, 0⟩) = .ok false :=
  ⟨rfl, rfl⟩

/-- C2: the claim that `requireSomePointInInterior` is true for the prepared
contains predicate fails: `PreparedPolygonContains.__init__` passes no flag,
so it stays at the default `False` and the prepared contains reports the
boundary-only point (2,0) of the [0,4] square as contained; `eval` run with
the flag set to true — as the claim states — returns false on the same
input; and the covers predicate never reaches its claimed flag value at all,
since `PreparedPolygonCovers.__init__` skips
`AbstractPreparedPolygonContains.__init__` and `eval`'s read of the unset
flag attribute raises `AttributeError`. -/
theorem c2_contains_flag_defaults_false_and_covers_flag_unset :
    preparedPolygonContains specRelateContains ⟨sq4Geom⟩ (.point ⟨2, 0⟩) =
      .ok true ∧
    abstractContainsEval true
      (fun t => geomContains specRelateContains sq4Geom t) ⟨sq4Geom⟩
      (.point ⟨2, 0⟩) = .ok false ∧
    preparedPolygonCovers ⟨sq4Geom⟩ (.point ⟨2, 2⟩) =
      .error .attributeError :=
  ⟨rfl, rfl, rfl⟩

/-- C3: the rectangle fast-path claim fails on the code.  `is_rectangle` is
always false (no class overrides the base `Geometry.is_rectangle`), so the
square [0,0]-[10,10] never dispatches to `RectangleContains`; the boundary
point (0,5) is then reported `contains = true` by the general prepared path
(instead of the claimed false), although `RectangleContains` itself would
have answered false.  The remaining claimed outcomes — (5,5) contained,
(15,5) neither contained nor intersecting, (0,5) intersecting — do hold. -/
theorem c3_rectangle_fast_path_never_taken_and_boundary_contained :
    Geom.is_rectangle sq10Geom = false ∧
    preparedPolygonContains specRelateContains ⟨sq10Geom⟩ (.point ⟨0, 5⟩) =
      .ok true ∧
    preparedPolygonContains specRelateContains ⟨sq10Geom⟩ (.point ⟨5, 5⟩) =
      .ok true ∧
    preparedPolygonContains specRelateContains ⟨sq10Geom⟩ (.point ⟨15, 5⟩) =
      .ok false ∧
    preparedPolygonIntersects ⟨sq10Geom⟩ (.point ⟨0, 5⟩) = .ok true ∧
    preparedPolygonIntersects ⟨sq10Geom⟩ (.point ⟨15, 5⟩) = .ok false ∧
    rectangleContains sq10Geom (.point ⟨0, 5⟩) = .ok false :=
  ⟨rfl, rfl, rfl, rfl, rfl, rfl, rfl⟩

/-- C4: with an empty operand, `intersection` does short-circuit before the
overlay operation, but instead of returning an empty GeometryCollection it
raises `TypeError`: the short-circuit calls
`self._factory.createGeometryCollection()` without the required `newGeoms`
argument. -/
theorem c4_intersection_empty_operand_raises_type_error :
    geomIntersection (.lineString []) (.point ⟨1, 1⟩) =
      .error .typeErrorMissingArg ∧
    geomIntersection (.point ⟨1, 1⟩) (.lineString []) =
      .error .typeErrorMissingArg :=
  ⟨rfl, rfl⟩

/-- C5: a `geometryChanged` notification does NOT clear the envelope cache.
A LineString (0,0)-(1,1) caches envelope (0,0,1,1); after its coordinates are
mutated in place to (0,0)-(2,2) and `geometryChangedAction` runs — which
assigns `None` to the attribute `_env`, not to the `_envelope` cache cell —
the next envelope access still returns the stale (0,0,1,1), although
recomputing from the current coordinates gives (0,0,2,2). -/
theorem c5_geometry_changed_leaves_envelope_cache_stale :
    lsComputeEnvelope ⟨[⟨0, 0⟩, ⟨1, 1⟩], none, none⟩ =
      .ok (⟨[⟨0, 0⟩, ⟨1, 1⟩], some ⟨0, 0, 1, 1⟩, none⟩, ⟨0, 0, 1, 1⟩) ∧
    lsComputeEnvelope
        (lsGeometryChangedAction ⟨[⟨0, 0⟩, ⟨2, 2⟩], some ⟨0, 0, 1, 1⟩, none⟩) =
      .ok (⟨[⟨0, 0⟩, ⟨2, 2⟩], some ⟨0, 0, 1, 1⟩, none⟩, ⟨0, 0, 1, 1⟩) ∧
    coordsBox [⟨0, 0⟩, ⟨2, 2⟩] = some ⟨0, 0, 2, 2⟩ ∧
    (⟨0, 0, 1, 1⟩ : Box) ≠ ⟨0, 0, 2, 2⟩ :=
  ⟨rfl, rfl, rfl, by decide⟩

/-- C6: `toGeometry` on a null envelope does not return an empty point: it
calls `self.createPoint()` without the required `coord` argument and raises
`TypeError`.  The other claimed branches behave as stated: a zero-width
zero-height envelope becomes a single point, and a proper envelope becomes a
polygon whose shell ring is (minx,miny), (maxx,miny), (maxx,maxy),
(minx,maxy), (minx,miny). -/
theorem c6_to_geometry_null_envelope_raises :
    toGeometry none = .error .typeErrorMissingArg ∧
    toGeometry (some ⟨1, 2, 1, 2⟩) = .ok (.point ⟨1, 2⟩) ∧
    toGeometry (some ⟨0, 0, 2, 3⟩) =
      .ok (.polygon [⟨0, 0⟩, ⟨2, 0⟩, ⟨2, 3⟩, ⟨0, 3⟩, ⟨0, 0⟩] []) :=
  ⟨rfl, rfl, rfl⟩

/-- C7 counterexample: the claim says every coordinate sequence with fewer
than 2 points makes `createLineString` return null, but on the 1-point
sequence [(3,4)] it raises `ValueError` (from
`LineString.validateConstruction`) instead. -/
theorem c7_counterexample_singleton_raises_not_null :
    createLineString [⟨3, 4⟩] = .error .valueError ∧
    createLineString [⟨3, 4⟩] ≠ .ok none :=
  ⟨rfl, fun h => Except.noConfusion h⟩

/-- C7 amended: `createLineString` returns null only for a 0-point sequence;
a 1-point sequence raises a construction validation error (`ValueError`); a
sequence of 2 or more points yields the LineString. -/
theorem c7_create_line_string_amended :
    createLineString [] = .ok none ∧
    (∀ c : Coord, createLineString [c] = .error .valueError) ∧
    (∀ cs : List Coord, 2 ≤ cs.length →
      createLineString cs = .ok (some (.lineString cs))) := by
  refine ⟨rfl, fun c => rfl, fun cs h => ?_⟩
  have h1 : ¬cs.length = 1 := by omega
  have h2 : cs.length > 1 := by omega
  simp [createLineString, h1, h2]

/-- C7 witness: the amended theorem applied at the concrete 2-point
sequence (0,0), (1,1). -/
theorem c7_create_line_string_amended_witness :
    createLineString [⟨0, 0⟩, ⟨1, 1⟩] =
      .ok (some (.lineString [⟨0, 0⟩, ⟨1, 1⟩])) :=
  c7_create_line_string_amended.2.2 [⟨0, 0⟩, ⟨1, 1⟩] (by decide)

/-- C8: LinearRing construction on the empty (0-point) coordinate sequence
does not succeed as claimed: `validateConstruction` evaluates
`self._coords[0]` with no emptiness guard and raises `IndexError`.  The
other claimed behaviours hold: 1-3 points raise a validation error, an
unclosed 4-point sequence raises a validation error, and repeated
consecutive points are removed before a closed ring of at least 4 remaining
points is accepted. -/
theorem c8_linear_ring_empty_raises_index_error :
    createLinearRingCoords [] = .error .indexError ∧
    createLinearRingCoords [⟨0, 0⟩, ⟨1, 0⟩, ⟨0, 0⟩] = .error .valueError ∧
    createLinearRingCoords [⟨0, 0⟩, ⟨1, 0⟩, ⟨1, 1⟩, ⟨0, 1⟩] =
      .error .valueError ∧
    createLinearRingCoords
        [⟨0, 0⟩, ⟨0, 0⟩, ⟨1, 0⟩, ⟨1, 1⟩, ⟨0, 1⟩, ⟨0, 0⟩] =
      .ok [⟨0, 0⟩, ⟨1, 0⟩, ⟨1, 1⟩, ⟨0, 1⟩, ⟨0, 0⟩] :=
  ⟨rfl, rfl, rfl, rfl⟩

/-- C9: `A.within(B)` returns exactly `B.contains(A)` for all geometries and
every relate classification, empty geometries included: the source defines
`within` as `return other.contains(self)`. -/
theorem c9_within_equals_flipped_contains :
    ∀ (relateIsContains : Geom → Geom → Bool) (a b : Geom),
      geomWithin relateIsContains a b = geomContains relateIsContains b a :=
  fun _ _ _ => rfl

/-- C10: whenever the wrapped polygon's envelope does not cover the test
geometry's envelope, every prepared-polygon predicate — contains, covers,
containsProperly, and in particular intersects, whose pre-filter is envelope
covering rather than envelope intersection — returns false. -/
theorem c10_prepared_predicates_false_without_envelope_cover :
    ∀ (relateIsContains : Geom → Geom → Bool) (prep : PreparedPolygon)
      (g : Geom), envelopeCoversG prep.geom g = .ok false →
      preparedPolygonContains relateIsContains prep g = .ok false ∧
      preparedPolygonCovers prep g = .ok false ∧
      preparedPolygonContainsProperly prep g = .ok false ∧
      preparedPolygonIntersects prep g = .ok false := by
  intro relateIsContains prep g h
  refine ⟨?_, ?_, ?_, ?_⟩ <;>
    simp [preparedPolygonContains, preparedPolygonCovers,
      preparedPolygonContainsProperly, preparedPolygonIntersects, h]

/-- C10 witness: the theorem applied to the [0,10] square target and the
point (99,99), whose envelope it does not cover. -/
theorem c10_prepared_predicates_witness :
    preparedPolygonContains specRelateContains ⟨sq10Geom⟩
      (.point ⟨99, 99⟩) = .ok false :=
  (c10_prepared_predicates_false_without_envelope_cover specRelateContains
    ⟨sq10Geom⟩ (.point ⟨99, 99⟩) rfl).1

end PyGeos
